import Mathlib

/-!
Shallow embedding of the scenario-based scoring engine of
`streamlit_app.py` (SME Self-Assessment Wizard): the scenario catalog,
`score_selection`, `evaluate_scenario`, `compute_domain_scores_from_sims`,
`overall_score` and the JSON export payload, together with theorems about
the claims on these functions.

Python floats are modelled as `ℚ`, Python ints as `Int`, Python ordered
dicts as association lists with the standard first-match lookup and
in-place-update insert.  `round` is Python 3 `round` (round-half-to-even).
`sorted(xs, reverse=True)` on a list of integers is modelled with
`List.insertionSort (· ≥ ·)`: any sorting algorithm produces the same
value on integer lists (sorted permutations are unique), and
`insertionSort` is structurally recursive, hence evaluable.
-/

set_option allowUnsafeReducibility true
attribute [local semireducible] Rat.add Rat.mul Rat.div Rat.sub Rat.inv Rat.neg

namespace SME

/-- An option of a cues/actions task group: `{"text": ..., "tag": ..., "weight": ...}`. -/
structure Opt where
  text : String
  tag : String
  weight : Int
deriving DecidableEq, Repr

/-- A task group: `{"prompt": ..., "options": [...], "max_select": n}`. -/
structure TaskGroup where
  prompt : String
  options : List Opt
  max_select : Int
deriving DecidableEq, Repr

/-- A stored scenario response: `{"cues": [...], "actions": [...], "confidence": n}`. -/
structure Response where
  cues : List String
  actions : List String
  confidence : Int
deriving DecidableEq, Repr

/-- A scenario of the catalog (fields the scoring engine reads). -/
structure Scenario where
  id : String
  title : String
  cues : TaskGroup
  actions : TaskGroup
  domain_map : List (String × ℚ)
  hint_fix : String
deriving DecidableEq, Repr

/-- First-match lookup in an association list (Python dict read). -/
def lookup' {α : Type} (k : String) : List (String × α) → Option α
  | [] => none
  | kv :: t => if kv.1 = k then some kv.2 else lookup' k t

/-- Python `m.get(k, 0.0)` on a float-valued dict. -/
def dget (m : List (String × ℚ)) (k : String) : ℚ :=
  match m with
  | [] => 0
  | kv :: t => if kv.1 = k then kv.2 else dget t k

/-- Python `m[k] = v` on an ordered dict: update in place, else append. -/
def dset (m : List (String × ℚ)) (k : String) (v : ℚ) : List (String × ℚ) :=
  match m with
  | [] => [(k, v)]
  | kv :: t => if kv.1 = k then (kv.1, v) :: t else kv :: dset t k v

/-- Python list slice `l[:n]` for an `int` bound `n` (negative counts from the end). -/
def pyTake (n : Int) (l : List Int) : List Int :=
  l.take (if n < 0 then ((l.length : Int) + n).toNat else n.toNat)

/-- Python 3 `round(x)`: round half to even.  (`Rat.floor` is the
kernel-evaluable floor; it agrees with `⌊·⌋`, see `ratFloor_eq_floor`.) -/
def pyRound (x : ℚ) : Int :=
  let f := Rat.floor x
  let r := x - f
  if r < 1/2 then f
  else if 1/2 < r then f + 1
  else if f % 2 = 0 then f else f + 1

/-- Python 3 `round(x, 1)`. -/
def pyRound1 (x : ℚ) : ℚ :=
  (pyRound (x * 10) : ℚ) / 10

/-- Weight of the first option whose text equals `s`, `0` if none
(the inner `for opt in options: ... break` loop of `score_selection`). -/
def optWeight (options : List Opt) (s : String) : Int :=
  match options.find? (fun o => o.text == s) with
  | some o => o.weight
  | none => 0

/-- The `score` accumulator of `score_selection`: sum of first-match weights
over the selected texts. -/
def rawScore (options : List Opt) (selected : List String) : Int :=
  (selected.map (optWeight options)).sum

/-- `sorted([max(0, opt["weight"]) for opt in options], reverse=True)`. -/
def positivesSorted (options : List Opt) : List Int :=
  List.insertionSort (fun a b => a ≥ b) (options.map (fun o => max 0 o.weight))

/-- `max_pos = sum(positives[:max_select]) if positives else 0`. -/
def maxPos (options : List Opt) (max_select : Int) : Int :=
  let positives := positivesSorted options
  if positives = [] then 0 else (pyTake max_select positives).sum

/-- `score_selection(options, selected, max_select)`: normalize to 0–100 by
best possible positive picks. -/
def score_selection (options : List Opt) (selected : List String) (max_select : Int) : ℚ :=
  let score := rawScore options selected
  let max_pos := maxPos options max_select
  if max_pos ≤ 0 then
    if 0 ≤ score then 100 else 0
  else
    let norm : ℚ := max 0 (score : ℚ) / (max_pos : ℚ) * 100
    max 0 (min 100 norm)

/-- Result record of `evaluate_scenario`. -/
structure EvalResult where
  cues_score : ℚ
  actions_score : ℚ
  base : ℚ
  contrib : List (String × ℚ)
  good_actions : List String
  risky_actions : List String
  missed_cues : List String
  hint_fix : String
  selected_tags : List String
deriving DecidableEq, Repr

/-- `evaluate_scenario(scn, sel_cues, sel_actions, confidence)`. -/
def evaluate_scenario (scn : Scenario) (sel_cues sel_actions : List String)
    (confidence : Int) : EvalResult :=
  let cues_cfg := scn.cues
  let act_cfg := scn.actions
  let cues_score := score_selection cues_cfg.options sel_cues cues_cfg.max_select
  let act_score := score_selection act_cfg.options sel_actions act_cfg.max_select
  let base := (cues_score + act_score) / 2
  let calib : ℚ :=
    if base < 40 ∧ 70 ≤ confidence then -5
    else if 60 ≤ base ∧ 70 ≤ confidence then 5
    else 0
  let contrib0 := scn.domain_map.map (fun dp => (dp.1, base * dp.2))
  let contrib :=
    if "Email & Awareness" ∈ contrib0.map Prod.fst then
      contrib0.map (fun dp =>
        if dp.1 = "Email & Awareness" then (dp.1, dp.2 + calib) else dp)
    else contrib0
  let pick := fun (optlist : List Opt) (selected : List String) (good : Bool) =>
    (optlist.filter (fun o => selected.contains o.text && (decide (0 < o.weight) == good))).map Opt.text
  let pos_cues := cues_cfg.options.filter (fun o => decide (0 < o.weight))
  { cues_score := pyRound1 cues_score
    actions_score := pyRound1 act_score
    base := pyRound1 base
    contrib := contrib
    good_actions := pick act_cfg.options sel_actions true
    risky_actions := pick act_cfg.options sel_actions false
    missed_cues := ((pos_cues.map Opt.text).filter (fun t => !(sel_cues.contains t))).take 2
    hint_fix := scn.hint_fix
    selected_tags :=
      (sel_actions.map (fun txt =>
        (act_cfg.options.filter (fun o => o.text == txt)).map Opt.tag)).flatten }

/-- Scenario "Supplier invoice change" (`s1_invoice`). -/
def s1_invoice : Scenario :=
  { id := "s1_invoice"
    title := "Supplier invoice change"
    cues :=
      { prompt := "Which details make you pause? (pick up to 3)"
        options :=
          [ { text := "New bank details + urgency", tag := "cue_new_iban", weight := 2 },
            { text := "Reply-To differs from display name", tag := "cue_replyto", weight := 2 },
            { text := "Link domain not the usual portal", tag := "cue_domain", weight := 2 },
            { text := "Looks fine to me", tag := "cue_none", weight := -2 } ]
        max_select := 3 }
    actions :=
      { prompt := "What would you do first? (pick up to 2)"
        options :=
          [ { text := "Call supplier via number in finance contacts", tag := "oob_verify", weight := 3 },
            { text := "Reply to the email to confirm", tag := "reply_email", weight := -2 },
            { text := "Ask finance to cross-check IBAN in ERP", tag := "crosscheck_iban", weight := 2 },
            { text := "Click the button and log in to verify", tag := "click_link", weight := -3 },
            { text := "Hold the payment and open a ticket", tag := "hold_and_ticket", weight := 2 } ]
        max_select := 2 }
    domain_map := [("Email & Awareness", 1/2), ("Response & Continuity", 1/2)]
    hint_fix := "Maintain a verified supplier contact list and require two-channel verification for bank detail changes." }

/-- Scenario "CEO urgent payment request" (`s2_ceo`). -/
def s2_ceo : Scenario :=
  { id := "s2_ceo"
    title := "CEO urgent payment request"
    cues :=
      { prompt := "What looks off? (pick up to 3)"
        options :=
          [ { text := "Non-corporate sender address", tag := "cue_sender", weight := 2 },
            { text := "Bypass normal approvals", tag := "cue_bypass", weight := 2 },
            { text := "Unusual time and secrecy", tag := "cue_timesecrecy", weight := 2 },
            { text := "Nothing stands out", tag := "cue_none", weight := -2 } ]
        max_select := 3 }
    actions :=
      { prompt := "What do you do? (pick up to 2)"
        options :=
          [ { text := "Verify via known company channel", tag := "oob_verify", weight := 3 },
            { text := "Proceed due to authority", tag := "comply_authority", weight := -3 },
            { text := "Log the event and notify finance lead", tag := "log_and_notify", weight := 2 },
            { text := "Ask for details by replying to the same email", tag := "reply_email", weight := -2 } ]
        max_select := 2 }
    domain_map := [("Governance", 3/10), ("Response & Continuity", 7/10)]
    hint_fix := "Document payment approvals; never bypass without two approvers and an out-of-band check." }

/-- Scenario "Password-reset alert" (`s3_reset`). -/
def s3_reset : Scenario :=
  { id := "s3_reset"
    title := "Password-reset alert"
    cues :=
      { prompt := "Spot the cues (pick up to 3)"
        options :=
          [ { text := "Shortened or mismatched URL", tag := "cue_url", weight := 2 },
            { text := "Generic greeting / odd branding", tag := "cue_generic", weight := 2 },
            { text := "Time pressure to click", tag := "cue_pressure", weight := 2 },
            { text := "Looks legit", tag := "cue_none", weight := -2 } ]
        max_select := 3 }
    actions :=
      { prompt := "What’s your move? (pick up to 2)"
        options :=
          [ { text := "Navigate to the site yourself (no link)", tag := "nav_direct", weight := 3 },
            { text := "Use the report-phish button", tag := "report_button", weight := 2 },
            { text := "Click the link and log in to check", tag := "click_link", weight := -3 },
            { text := "Reply asking if this is real", tag := "reply_email", weight := -2 } ]
        max_select := 2 }
    domain_map := [("Access & Accounts", 1/2), ("Email & Awareness", 1/2)]
    hint_fix := "Teach ‘navigate, don’t click’; enable an easy report button." }

/-- Scenario "Laptop lost on the train" (`s4_laptop`). -/
def s4_laptop : Scenario :=
  { id := "s4_laptop"
    title := "Laptop lost on the train"
    cues :=
      { prompt := "What matters most here? (pick up to 2)"
        options :=
          [ { text := "Data may be accessible if not encrypted", tag := "cue_encrypt", weight := 2 },
            { text := "Tokens/sessions may still be valid", tag := "cue_tokens", weight := 2 },
            { text := "We can probably ignore if it’s passworded", tag := "cue_ignore", weight := -2 } ]
        max_select := 2 }
    actions :=
      { prompt := "What do you do first? (pick up to 2)"
        options :=
          [ { text := "Trigger remote wipe / lock", tag := "remote_wipe", weight := 3 },
            { text := "Revoke tokens & reset credentials", tag := "revoke_tokens", weight := 2 },
            { text := "Wait a week to see if it turns up", tag := "wait_and_see", weight := -3 },
            { text := "Log the incident and notify insurer", tag := "log_and_notify", weight := 2 } ]
        max_select := 2 }
    domain_map := [("Devices", 3/5), ("Response & Continuity", 2/5)]
    hint_fix := "Enforce full-disk encryption and keep MDM ready for remote lock/wipe." }

/-- Scenario "Cloud sharing mishap" (`s5_share`). -/
def s5_share : Scenario :=
  { id := "s5_share"
    title := "Cloud sharing mishap"
    cues :=
      { prompt := "What’s risky here? (pick up to 3)"
        options :=
          [ { text := "Public link and no expiry", tag := "cue_public", weight := 2 },
            { text := "Sensitive data present", tag := "cue_sensitive", weight := 2 },
            { text := "Default ‘Anyone’ sharing", tag := "cue_default", weight := 2 },
            { text := "No obvious risk", tag := "cue_none", weight := -2 } ]
        max_select := 3 }
    actions :=
      { prompt := "What would you do now? (pick up to 2)"
        options :=
          [ { text := "Remove public access / rotate link", tag := "remove_public", weight := 3 },
            { text := "Notify affected team and document", tag := "log_and_notify", weight := 2 },
            { text := "Leave as is but monitor", tag := "do_nothing", weight := -3 },
            { text := "Review sharing defaults for the workspace", tag := "review_defaults", weight := 2 } ]
        max_select := 2 }
    domain_map := [("Data & Backups", 3/5), ("Governance", 2/5)]
    hint_fix := "Set workspace sharing defaults; require expiry and least-privilege links." }

/-- The scenario catalog `SCENARIOS`. -/
def SCENARIOS : List Scenario := [s1_invoice, s2_ceo, s3_reset, s4_laptop, s5_share]

/-- The fixed domain list `DOMAINS`. -/
def DOMAINS : List String :=
  ["Access & Accounts", "Devices", "Data & Backups", "Email & Awareness",
   "Response & Continuity", "Governance"]

/-- `traffic_light(pct)`. -/
def traffic_light (pct : ℚ) : String × String :=
  if 75 ≤ pct then ("green", "Good")
  else if 40 ≤ pct then ("amber", "Needs work")
  else ("red", "At risk")

/-- Per-domain entry of the result dict of `compute_domain_scores_from_sims`. -/
structure DomainResult where
  score : Int
  colour : String
  label : String
deriving DecidableEq, Repr

/-- One iteration of the `for scn in SCENARIOS` loop of
`compute_domain_scores_from_sims`, threading the `(domain_max, domain_sum)`
dicts: the maximum is always accumulated, the sum only for answered
scenarios (clamped at 0 per contribution). -/
def stepScenario (sim_answers : String → Option Response)
    (st : List (String × ℚ) × List (String × ℚ)) (scn : Scenario) :
    List (String × ℚ) × List (String × ℚ) :=
  let dmax := scn.domain_map.foldl
    (fun m dp => dset m dp.1 (dget m dp.1 + 100 * dp.2)) st.1
  match sim_answers scn.id with
  | none => (dmax, st.2)
  | some resp =>
    let ev := evaluate_scenario scn resp.cues resp.actions resp.confidence
    (dmax, ev.contrib.foldl
      (fun m dp => dset m dp.1 (dget m dp.1 + max 0 dp.2)) st.2)

/-- The `(domain_max, domain_sum)` state after the scenario loop
(`domain_sum` starts with an entry `0.0` for every fixed domain). -/
def simsState (sim_answers : String → Option Response) :
    List (String × ℚ) × List (String × ℚ) :=
  SCENARIOS.foldl (stepScenario sim_answers) ([], DOMAINS.map (fun d => (d, (0 : ℚ))))

/-- `compute_domain_scores_from_sims(sim_answers)`: traffic lights per domain. -/
def compute_domain_scores_from_sims (sim_answers : String → Option Response) :
    List (String × DomainResult) :=
  let st := simsState sim_answers
  DOMAINS.map (fun d =>
    let maxv := dget st.1 d
    let pct : ℚ := if 0 < maxv then dget st.2 d / maxv * 100 else 0
    let tl := traffic_light pct
    (d, { score := pyRound pct, colour := tl.1, label := tl.2 }))

/-- Result record of `overall_score`. -/
structure OverallResult where
  score : Int
  colour : String
  label : String
deriving DecidableEq, Repr

/-- `overall_score(domain_scores)`: mean of the domain scores.  The Python
`if v["score"] is not None` filter drops nothing, since every stored score
is an integer. -/
def overall_score (domain_scores : List (String × DomainResult)) : OverallResult :=
  let vals := domain_scores.map (fun p => p.2.score)
  if vals = [] then { score := 0, colour := "red", label := "At risk" }
  else
    let avg : ℚ := ((vals.map (fun v => (v : ℚ))).sum) / (vals.length : ℚ)
    let tl := traffic_light avg
    { score := pyRound avg, colour := tl.1, label := tl.2 }

/-- A Python/JSON value, as far as the export payload needs it. -/
inductive PyVal where
  | obj : List (String × PyVal) → PyVal
  | arr : List PyVal → PyVal
  | str : String → PyVal
  | int : Int → PyVal
  | rat : ℚ → PyVal

/-- The `export_payload` dict literal of the results page, keyed exactly as
in the source: profile, initial answers, `sim_answers`, domain scores,
overall, strengths, fixes. -/
def export_payload (profile : List (String × String))
    (initial_answers : List (String × PyVal))
    (sim_answers : List (String × PyVal))
    (domain_scores : List (String × DomainResult))
    (overall : OverallResult)
    (strengths fixes : List String) : List (String × PyVal) :=
  [ ("profile", PyVal.obj (profile.map (fun p => (p.1, PyVal.str p.2)))),
    ("initial_answers", PyVal.obj initial_answers),
    ("sim_answers", PyVal.obj sim_answers),
    ("domain_scores", PyVal.obj (domain_scores.map (fun p =>
      (p.1, PyVal.obj [("score", PyVal.int p.2.score),
                       ("colour", PyVal.str p.2.colour),
                       ("label", PyVal.str p.2.label)])))),
    ("overall", PyVal.obj [("score", PyVal.int overall.score),
                           ("colour", PyVal.str overall.colour),
                           ("label", PyVal.str overall.label)]),
    ("strengths", PyVal.arr (strengths.map PyVal.str)),
    ("fixes", PyVal.arr (fixes.map PyVal.str)) ]

/-- The (unrounded) `base` value computed inside `evaluate_scenario`. -/
def evalBase (scn : Scenario) (sel_cues sel_actions : List String) : ℚ :=
  (score_selection scn.cues.options sel_cues scn.cues.max_select
    + score_selection scn.actions.options sel_actions scn.actions.max_select) / 2

/-- The `calib` value computed inside `evaluate_scenario`. -/
def evalCalib (scn : Scenario) (sel_cues sel_actions : List String) (confidence : Int) : ℚ :=
  if evalBase scn sel_cues sel_actions < 40 ∧ 70 ≤ confidence then -5
  else if 60 ≤ evalBase scn sel_cues sel_actions ∧ 70 ≤ confidence then 5
  else 0

/-- The amount an answered scenario adds to `domain_sum[d]` (zero when the
scenario is unanswered; contributions clamped at 0). -/
def scnContribution (sim_answers : String → Option Response) (scn : Scenario) (d : String) : ℚ :=
  match sim_answers scn.id with
  | none => 0
  | some resp =>
    ((((evaluate_scenario scn resp.cues resp.actions resp.confidence).contrib.filter
        (fun dp => dp.1 = d)).map (fun dp => max 0 dp.2))).sum

/-- Full-score responses with confidence 70 for the two scenarios that map
"Email & Awareness": all positive cues and the two best actions each. -/
def overconfidentFullAnswers : String → Option Response := fun i =>
  if i = "s1_invoice" then
    some { cues := ["New bank details + urgency", "Reply-To differs from display name",
                    "Link domain not the usual portal"],
           actions := ["Call supplier via number in finance contacts",
                       "Ask finance to cross-check IBAN in ERP"],
           confidence := 70 }
  else if i = "s3_reset" then
    some { cues := ["Shortened or mismatched URL", "Generic greeting / odd branding",
                    "Time pressure to click"],
           actions := ["Navigate to the site yourself (no link)",
                       "Use the report-phish button"],
           confidence := 70 }
  else none

/-! ## Helper lemmas -/

/-- `Rat.floor` agrees with the mathematical floor. -/
theorem ratFloor_eq_floor (x : ℚ) : Rat.floor x = ⌊x⌋ := by
  rw [Rat.floor_def', Rat.floor_def]

/-- `pyRound` never rounds below the floor. -/
theorem le_pyRound (x : ℚ) : ⌊x⌋ ≤ pyRound x := by
  simp only [pyRound, ratFloor_eq_floor]
  split_ifs <;> omega

/-- `pyRound` never rounds above the ceiling. -/
theorem pyRound_le (x : ℚ) : pyRound x ≤ ⌊x⌋ + 1 := by
  simp only [pyRound, ratFloor_eq_floor]
  split_ifs <;> omega

/-- Round-half-to-even is monotone. -/
theorem pyRound_mono {x y : ℚ} (h : x ≤ y) : pyRound x ≤ pyRound y := by
  have hf : ⌊x⌋ ≤ ⌊y⌋ := Int.floor_mono h
  by_cases heq : ⌊x⌋ = ⌊y⌋
  · simp only [pyRound, ratFloor_eq_floor, heq]
    have hxy : x - (⌊y⌋ : ℚ) ≤ y - (⌊y⌋ : ℚ) := by linarith
    split_ifs <;> first | omega | (exfalso; linarith)
  · calc pyRound x ≤ ⌊x⌋ + 1 := pyRound_le x
      _ ≤ ⌊y⌋ := by omega
      _ ≤ pyRound y := le_pyRound y

/-- Reading a dict after a write. -/
theorem dget_dset (m : List (String × ℚ)) (k : String) (v : ℚ) (k' : String) :
    dget (dset m k v) k' = if k = k' then v else dget m k' := by
  induction m with
  | nil =>
    by_cases h : k = k' <;> simp [dset, dget, h]
  | cons kv t ih =>
    simp only [dset]
    by_cases h1 : kv.1 = k
    · rw [if_pos h1]
      by_cases h2 : k = k'
      · simp [dget, h1.trans h2, h2]
      · have h3 : kv.1 ≠ k' := fun hh => h2 (h1.symm.trans hh)
        simp [dget, h2, h3]
    · rw [if_neg h1]
      by_cases h2 : kv.1 = k'
      · have h4 : k ≠ k' := fun hh => h1 (h2.trans hh.symm)
        simp [dget, h2, h4]
      · simp [dget, h2, ih]

/-- Accumulating writes over a list of keyed values, read back at `d`. -/
theorem dget_foldl_add (l : List (String × ℚ)) (f : String × ℚ → ℚ)
    (m : List (String × ℚ)) (d : String) :
    dget (l.foldl (fun m dp => dset m dp.1 (dget m dp.1 + f dp)) m) d
      = dget m d + ((l.filter (fun dp => dp.1 = d)).map f).sum := by
  induction l generalizing m with
  | nil => simp
  | cons dp t ih =>
    simp only [List.foldl_cons, ih, dget_dset]
    by_cases h : dp.1 = d
    · simp [h, List.filter_cons]
      ring
    · simp [h, List.filter_cons]

/-- `lookup'` over a key-preserving value map. -/
theorem lookup'_map2 (g : String → ℚ → ℚ) (l : List (String × ℚ)) (k : String) :
    lookup' k (l.map fun dp => (dp.1, g dp.1 dp.2)) = (lookup' k l).map (g k) := by
  induction l with
  | nil => rfl
  | cons dp t ih =>
    by_cases h : dp.1 = k
    · subst h; simp [lookup']
    · simp [lookup', h, ih]

/-- `lookup'` misses exactly the keys outside the dict. -/
theorem lookup'_eq_none {α : Type} (l : List (String × α)) (k : String) :
    lookup' k l = none ↔ k ∉ l.map Prod.fst := by
  induction l with
  | nil => simp [lookup']
  | cons kv t ih =>
    by_cases h : kv.1 = k
    · simp [lookup', h]
    · simp [lookup', h, ih, Ne.symm h]

/-- `lookup'` on a dict whose entries are `(d, g d)` over a key list. -/
theorem lookup'_map_self {α : Type} (l : List String) (g : String → α) (k : String) :
    lookup' k (l.map fun d => (d, g d)) = if k ∈ l then some (g k) else none := by
  induction l with
  | nil => simp [lookup']
  | cons a t ih =>
    by_cases h : a = k
    · subst h; simp [lookup']
    · simp [lookup', h, ih, Ne.symm h]

/-- The all-zero initial `domain_sum` dict reads 0 everywhere. -/
theorem dget_zero_init (l : List String) (k : String) :
    dget (l.map fun d => (d, (0 : ℚ))) k = 0 := by
  induction l with
  | nil => rfl
  | cons a t ih => by_cases h : a = k <;> simp [dget, h, ih]

/-- The `domain_max` half of a loop iteration ignores the response. -/
theorem stepScenario_fst (ans : String → Option Response)
    (st : List (String × ℚ) × List (String × ℚ)) (scn : Scenario) :
    (stepScenario ans st scn).1
      = scn.domain_map.foldl (fun m dp => dset m dp.1 (dget m dp.1 + 100 * dp.2)) st.1 := by
  unfold stepScenario
  cases ans scn.id <;> rfl

/-- The `domain_max` dict after the loop does not depend on the answers. -/
theorem simsState_fst_congr (ans ans' : String → Option Response) :
    (simsState ans).1 = (simsState ans').1 := by
  unfold simsState
  suffices h : ∀ (l : List Scenario) (st st' : List (String × ℚ) × List (String × ℚ)),
      st.1 = st'.1 → (l.foldl (stepScenario ans) st).1 = (l.foldl (stepScenario ans') st').1 from
    h SCENARIOS _ _ rfl
  intro l
  induction l with
  | nil => intro st st' h; exact h
  | cons scn t ih =>
    intro st st' h
    simp only [List.foldl_cons]
    exact ih _ _ (by rw [stepScenario_fst, stepScenario_fst, h])

/-- The `domain_sum` half of a loop iteration adds the scenario's clamped
contribution at `d`. -/
theorem stepScenario_snd_dget (ans : String → Option Response)
    (st : List (String × ℚ) × List (String × ℚ)) (scn : Scenario) (d : String) :
    dget (stepScenario ans st scn).2 d = dget st.2 d + scnContribution ans scn d := by
  unfold stepScenario scnContribution
  cases h : ans scn.id
  · simp
  · simp [dget_foldl_add]

/-- After the whole loop, `domain_sum[d]` is the sum of the per-scenario
clamped contributions at `d`. -/
theorem simsState_snd_dget (ans : String → Option Response) (d : String) :
    dget (simsState ans).2 d = (SCENARIOS.map (fun scn => scnContribution ans scn d)).sum := by
  unfold simsState
  suffices h : ∀ (l : List Scenario) (st : List (String × ℚ) × List (String × ℚ)),
      dget (l.foldl (stepScenario ans) st).2 d
        = dget st.2 d + (l.map (fun scn => scnContribution ans scn d)).sum by
    rw [h SCENARIOS _, dget_zero_init, zero_add]
  intro l
  induction l with
  | nil => intro st; simp
  | cons scn t ih =>
    intro st
    simp only [List.foldl_cons, List.map_cons, List.sum_cons, ih, stepScenario_snd_dget]
    ring

/-- A scenario's clamped contribution is never negative. -/
theorem scnContribution_nonneg (ans : String → Option Response) (scn : Scenario) (d : String) :
    0 ≤ scnContribution ans scn d := by
  unfold scnContribution
  cases ans scn.id
  · exact le_refl 0
  · exact List.sum_nonneg (by
      intro x hx
      obtain ⟨dp, _, hdp⟩ := List.mem_map.mp hx
      exact hdp ▸ le_max_left 0 dp.2)

/-- The contribution dict built by `evaluate_scenario`, read at any key `d`:
the base times the first mapped proportion, plus the calibration exactly on
"Email & Awareness". -/
theorem evaluate_contrib (scn : Scenario) (sel_cues sel_actions : List String)
    (confidence : Int) :
    (evaluate_scenario scn sel_cues sel_actions confidence).contrib
      = scn.domain_map.map (fun dp =>
          (dp.1,
            if dp.1 = "Email & Awareness" ∧ "Email & Awareness" ∈ scn.domain_map.map Prod.fst
            then evalBase scn sel_cues sel_actions * dp.2
                  + evalCalib scn sel_cues sel_actions confidence
            else evalBase scn sel_cues sel_actions * dp.2)) := by
  unfold evaluate_scenario
  simp only []
  have hb : (score_selection scn.cues.options sel_cues scn.cues.max_select
      + score_selection scn.actions.options sel_actions scn.actions.max_select) / 2
      = evalBase scn sel_cues sel_actions := rfl
  rw [hb]
  have hcal : (if evalBase scn sel_cues sel_actions < 40 ∧ 70 ≤ confidence then (-5 : ℚ)
      else if 60 ≤ evalBase scn sel_cues sel_actions ∧ 70 ≤ confidence then 5 else 0)
      = evalCalib scn sel_cues sel_actions confidence := rfl
  rw [hcal]
  have hkeys : ∀ (f : String × ℚ → ℚ),
      (scn.domain_map.map (fun dp => (dp.1, f dp))).map Prod.fst
        = scn.domain_map.map Prod.fst := by
    intro f
    simp [List.map_map, Function.comp]
  by_cases hmem : "Email & Awareness" ∈ scn.domain_map.map Prod.fst
  · rw [if_pos (by rw [hkeys]; exact hmem), List.map_map]
    apply List.map_congr_left
    intro dp _
    by_cases h : dp.1 = "Email & Awareness" <;> simp [Function.comp, h, hmem]
  · rw [if_neg (by rw [hkeys]; exact hmem)]
    apply List.map_congr_left
    intro dp hdp
    have h : ¬(dp.1 = "Email & Awareness" ∧ "Email & Awareness" ∈ scn.domain_map.map Prod.fst) :=
      fun hc => hmem hc.2
    rw [if_neg h]

/-- The contribution dict built by `evaluate_scenario`, read at any key `d`:
the base times the first mapped proportion, plus the calibration exactly on
"Email & Awareness". -/
theorem contrib_lookup (scn : Scenario) (sel_cues sel_actions : List String)
    (confidence : Int) (d : String) :
    lookup' d (evaluate_scenario scn sel_cues sel_actions confidence).contrib
      = (lookup' d scn.domain_map).map (fun p =>
          evalBase scn sel_cues sel_actions * p
            + if d = "Email & Awareness" then evalCalib scn sel_cues sel_actions confidence else 0) := by
  rw [evaluate_contrib]
  rw [lookup'_map2 (fun k v =>
    if k = "Email & Awareness" ∧ "Email & Awareness" ∈ scn.domain_map.map Prod.fst
    then evalBase scn sel_cues sel_actions * v + evalCalib scn sel_cues sel_actions confidence
    else evalBase scn sel_cues sel_actions * v)]
  by_cases hd : d = "Email & Awareness"
  · subst hd
    by_cases hmem : "Email & Awareness" ∈ scn.domain_map.map Prod.fst
    · simp [hmem]
    · have hnone : lookup' "Email & Awareness" scn.domain_map = none :=
        (lookup'_eq_none _ _).mpr hmem
      simp [hnone]
  · simp [hd]

/-- On options whose texts are pairwise distinct, the first-match search is
invariant under permutation of the options. -/
theorem find?_text_perm {l l' : List Opt} (h : l.Perm l') (s : String) :
    (l.map Opt.text).Nodup →
      l.find? (fun o => o.text == s) = l'.find? (fun o => o.text == s) := by
  induction h with
  | nil => intro _; rfl
  | cons x h ih =>
    intro hnd
    have hnd' : ((List.map Opt.text _).Nodup) := (List.nodup_cons.mp hnd).2
    cases hpx : (x.text == s) <;>
      simp [List.find?, hpx, ih hnd']
  | swap x y l =>
    intro hnd
    have hxy : y.text ≠ x.text := by
      have := (List.nodup_cons.mp hnd).1
      simp only [List.map_cons, List.mem_cons] at this ⊢
      exact fun he => this (Or.inl he)
    cases hpy : (y.text == s) <;> cases hpx : (x.text == s) <;>
      simp [List.find?, hpx, hpy]
    exact absurd ((eq_of_beq hpy).trans (eq_of_beq hpx).symm) hxy
  | trans h1 h2 ih1 ih2 =>
    intro hnd
    rw [ih1 hnd, ih2 (((h1.map Opt.text).nodup_iff).mp hnd)]

/-- The descending sort of clamped weights is invariant under permutation of
the options (sorted permutations of integer lists are unique). -/
theorem positivesSorted_perm {l l' : List Opt} (h : l.Perm l') :
    positivesSorted l = positivesSorted l' := by
  unfold positivesSorted
  exact List.eq_of_perm_of_sorted
    ((List.perm_insertionSort _ _).trans
      ((h.map _).trans (List.perm_insertionSort _ _).symm))
    (List.sorted_insertionSort (fun a b : Int => a ≥ b) _)
    (List.sorted_insertionSort (fun a b : Int => a ≥ b) _)

/-- `max_pos` is invariant under permutation of the options. -/
theorem maxPos_perm {l l' : List Opt} (h : l.Perm l') (max_select : Int) :
    maxPos l max_select = maxPos l' max_select := by
  unfold maxPos
  rw [positivesSorted_perm h]

/-- The selected-weight sum is invariant under permutation of both lists when
the option texts are pairwise distinct. -/
theorem rawScore_perm {l l' : List Opt} {sel sel' : List String}
    (hopt : l.Perm l') (hsel : sel.Perm sel') (hnd : (l.map Opt.text).Nodup) :
    rawScore l sel = rawScore l' sel' := by
  unfold rawScore
  have hw : optWeight l = optWeight l' := by
    funext s
    unfold optWeight
    rw [find?_text_perm hopt s hnd]
  rw [hw]
  exact (hsel.map (optWeight l')).sum_eq

/-! ## Claims -/

set_option maxRecDepth 4000 in
/-- Claim C1: the domain percent is NOT always within [0,100].  With
full-score, confidence-70 responses to the two scenarios mapping
"Email & Awareness", the +5 calibration pushes that domain's sum to 110
against a maximum of 100, and `compute_domain_scores_from_sims` reports an
unclamped score of 110. -/
theorem email_awareness_percent_110 :
    lookup' "Email & Awareness" (compute_domain_scores_from_sims overconfidentFullAnswers)
      = some { score := 110, colour := "green", label := "Good" } := by
  decide

/-- Claim C2 (counterexample): the export payload has no top-level key
`scenario_answers`; the third key is `sim_answers`. -/
theorem export_keys_counterexample :
    "scenario_answers" ∉ (export_payload [] [] [] []
        { score := 0, colour := "red", label := "At risk" } [] []).map Prod.fst ∧
    (export_payload [] [] [] []
        { score := 0, colour := "red", label := "At risk" } [] []).map Prod.fst
      = ["profile", "initial_answers", "sim_answers", "domain_scores",
         "overall", "strengths", "fixes"] := by
  decide

/-- Claim C2 (amended): for every session state the JSON export payload's
top-level keys are exactly profile, initial_answers, sim_answers,
domain_scores, overall, strengths and fixes, in that order. -/
theorem export_payload_keys (profile : List (String × String))
    (initial_answers sim_answers : List (String × PyVal))
    (domain_scores : List (String × DomainResult)) (overall : OverallResult)
    (strengths fixes : List String) :
    (export_payload profile initial_answers sim_answers domain_scores overall
        strengths fixes).map Prod.fst
      = ["profile", "initial_answers", "sim_answers", "domain_scores",
         "overall", "strengths", "fixes"] := rfl

/-- Claim C3: the calibration is exact.  If `base < 40` and
`confidence ≥ 70` the "Email & Awareness" contribution (when that domain is
mapped) is the uncalibrated `base * proportion` minus 5; if `base ≥ 60` and
`confidence ≥ 70` it is the uncalibrated value plus 5; in all other cases
every domain's contribution is `base * proportion` unchanged. -/
theorem calibration_exact (scn : Scenario) (sel_cues sel_actions : List String)
    (confidence : Int) :
    (evalBase scn sel_cues sel_actions < 40 → 70 ≤ confidence →
      ∀ p, lookup' "Email & Awareness" scn.domain_map = some p →
        lookup' "Email & Awareness" (evaluate_scenario scn sel_cues sel_actions confidence).contrib
          = some (evalBase scn sel_cues sel_actions * p - 5)) ∧
    (60 ≤ evalBase scn sel_cues sel_actions → 70 ≤ confidence →
      ∀ p, lookup' "Email & Awareness" scn.domain_map = some p →
        lookup' "Email & Awareness" (evaluate_scenario scn sel_cues sel_actions confidence).contrib
          = some (evalBase scn sel_cues sel_actions * p + 5)) ∧
    (¬((evalBase scn sel_cues sel_actions < 40 ∧ 70 ≤ confidence)
        ∨ (60 ≤ evalBase scn sel_cues sel_actions ∧ 70 ≤ confidence)) →
      ∀ d p, lookup' d scn.domain_map = some p →
        lookup' d (evaluate_scenario scn sel_cues sel_actions confidence).contrib
          = some (evalBase scn sel_cues sel_actions * p)) := by
  refine ⟨?_, ?_, ?_⟩
  · intro h1 h2 p hp
    have hc : evalCalib scn sel_cues sel_actions confidence = -5 := by
      unfold evalCalib
      rw [if_pos ⟨h1, h2⟩]
    rw [contrib_lookup, hp, Option.map_some']
    rw [if_pos rfl, hc]
    exact congrArg some (by ring)
  · intro h1 h2 p hp
    have hnot : ¬(evalBase scn sel_cues sel_actions < 40 ∧ 70 ≤ confidence) := by
      intro hcon
      linarith [hcon.1]
    have hc : evalCalib scn sel_cues sel_actions confidence = 5 := by
      unfold evalCalib
      rw [if_neg hnot, if_pos ⟨h1, h2⟩]
    rw [contrib_lookup, hp, Option.map_some']
    rw [if_pos rfl, hc]
  · intro h d p hp
    have hc : evalCalib scn sel_cues sel_actions confidence = 0 := by
      unfold evalCalib
      rw [if_neg (fun hcon => h (Or.inl hcon)), if_neg (fun hcon => h (Or.inr hcon))]
    have hz : (if d = "Email & Awareness"
        then evalCalib scn sel_cues sel_actions confidence else 0) = 0 := by
      by_cases hd : d = "Email & Awareness"
      · rw [if_pos hd, hc]
      · rw [if_neg hd]
    rw [contrib_lookup, hp, Option.map_some', hz, add_zero]

/-- Claim C3 witness: scenario 1 with two good cues, one good action and
confidence 80 is in the `base ≥ 60` branch; the mapped awareness proportion
is 1/2 and the contribution is the uncalibrated value plus 5. -/
theorem calibration_exact_witness :
    (60 : ℚ) ≤ evalBase s1_invoice
        ["New bank details + urgency", "Reply-To differs from display name"]
        ["Call supplier via number in finance contacts"] ∧
    (70 : Int) ≤ 80 ∧
    lookup' "Email & Awareness" s1_invoice.domain_map = some (1/2) ∧
    lookup' "Email & Awareness" (evaluate_scenario s1_invoice
        ["New bank details + urgency", "Reply-To differs from display name"]
        ["Call supplier via number in finance contacts"] 80).contrib
      = some (evalBase s1_invoice
          ["New bank details + urgency", "Reply-To differs from display name"]
          ["Call supplier via number in finance contacts"] * (1/2) + 5) :=
  ⟨by decide, by decide, by decide,
    (calibration_exact s1_invoice
        ["New bank details + urgency", "Reply-To differs from display name"]
        ["Call supplier via number in finance contacts"] 80).2.1
      (by decide) (by decide) (1/2) (by decide)⟩

/-- Claim C4: `score_selection` always returns a value in [0,100]. -/
theorem score_selection_bounds (options : List Opt) (selected : List String)
    (max_select : Int) :
    0 ≤ score_selection options selected max_select ∧
      score_selection options selected max_select ≤ 100 := by
  simp only [score_selection]
  split_ifs
  · norm_num
  · norm_num
  · exact ⟨le_max_left _ _, max_le (by norm_num) (min_le_left _ _)⟩

/-- Claim C5: scenario 1 with the two stated cues, the one stated action and
confidence 80 yields cues_score 66.7 (raw 4 of best 6), actions_score 60
(raw 3 of best 5), base 63.3, and the +5 calibration lands exactly on the
"Email & Awareness" entry of the contribution map. -/
theorem scenario1_end_to_end :
    (evaluate_scenario s1_invoice
        ["New bank details + urgency", "Reply-To differs from display name"]
        ["Call supplier via number in finance contacts"] 80).cues_score = 667/10 ∧
    (evaluate_scenario s1_invoice
        ["New bank details + urgency", "Reply-To differs from display name"]
        ["Call supplier via number in finance contacts"] 80).actions_score = 60 ∧
    (evaluate_scenario s1_invoice
        ["New bank details + urgency", "Reply-To differs from display name"]
        ["Call supplier via number in finance contacts"] 80).base = 633/10 ∧
    (evaluate_scenario s1_invoice
        ["New bank details + urgency", "Reply-To differs from display name"]
        ["Call supplier via number in finance contacts"] 80).contrib
      = [("Email & Awareness", (190/3) * (1/2) + 5),
         ("Response & Continuity", (190/3) * (1/2))] := by
  decide

/-- Claim C6: removing one scenario's response never changes any domain's
maximum (the `domain_max` dict is identical) and never increases any
domain's reported percent. -/
theorem unanswered_monotone (sim_answers : String → Option Response) (sid : String) :
    (simsState (fun i => if i = sid then none else sim_answers i)).1
      = (simsState sim_answers).1 ∧
    (∀ d r' r,
      lookup' d (compute_domain_scores_from_sims
        (fun i => if i = sid then none else sim_answers i)) = some r' →
      lookup' d (compute_domain_scores_from_sims sim_answers) = some r →
      r'.score ≤ r.score) := by
  constructor
  · exact simsState_fst_congr _ _
  · intro d r' r h' h
    unfold compute_domain_scores_from_sims at h' h
    simp only [] at h' h
    rw [lookup'_map_self] at h' h
    by_cases hd : d ∈ DOMAINS
    · rw [if_pos hd] at h' h
      have hr' := Option.some.inj h'
      have hr := Option.some.inj h
      have hM : dget (simsState (fun i => if i = sid then none else sim_answers i)).1 d
          = dget (simsState sim_answers).1 d := by
        rw [simsState_fst_congr]
      have hN : dget (simsState (fun i => if i = sid then none else sim_answers i)).2 d
          ≤ dget (simsState sim_answers).2 d := by
        rw [simsState_snd_dget, simsState_snd_dget]
        apply List.sum_le_sum
        intro scn _
        by_cases hid : scn.id = sid
        · have hnone : (fun i => if i = sid then none else sim_answers i) scn.id
              = (none : Option Response) := by simp [hid]
          have l0 : scnContribution (fun i => if i = sid then none else sim_answers i) scn d = 0 := by
            unfold scnContribution
            rw [hnone]
          rw [l0]
          exact scnContribution_nonneg _ _ _
        · have hsame : (fun i => if i = sid then none else sim_answers i) scn.id
              = sim_answers scn.id := by simp [hid]
          have leq : scnContribution (fun i => if i = sid then none else sim_answers i) scn d
              = scnContribution sim_answers scn d := by
            unfold scnContribution
            rw [hsame]
          rw [leq]
      rw [← hr', ← hr]
      apply pyRound_mono
      rw [hM]
      split_ifs with hpos
      · gcongr
      · exact le_refl 0
    · rw [if_neg hd] at h'
      cases h'

/-- Claim C6 witness: with no other scenario answered, removing the response
of `s1_invoice` leaves the Governance percent at 0 ≤ 0. -/
theorem unanswered_monotone_witness :
    lookup' "Governance" (compute_domain_scores_from_sims
        (fun i => if i = "s1_invoice" then none else (fun _ => none) i))
      = some { score := 0, colour := "red", label := "At risk" } ∧
    lookup' "Governance" (compute_domain_scores_from_sims (fun _ => none))
      = some { score := 0, colour := "red", label := "At risk" } ∧
    ({ score := 0, colour := "red", label := "At risk" } : DomainResult).score
      ≤ ({ score := 0, colour := "red", label := "At risk" } : DomainResult).score :=
  ⟨by decide, by decide,
    (unanswered_monotone (fun _ => none) "s1_invoice").2 "Governance"
      { score := 0, colour := "red", label := "At risk" }
      { score := 0, colour := "red", label := "At risk" } (by decide) (by decide)⟩

/-- Claim C7 (counterexample): with two options sharing the text "A",
permuting the options changes the first-match weight and hence the score
(100 against 0), so `score_selection` is not invariant under every
permutation of the options list. -/
theorem score_selection_order_counterexample :
    ([⟨"A", "t1", 2⟩, ⟨"A", "t2", -2⟩] : List Opt).Perm
      [⟨"A", "t2", -2⟩, ⟨"A", "t1", 2⟩] ∧
    score_selection [⟨"A", "t1", 2⟩, ⟨"A", "t2", -2⟩] ["A"] 1 = 100 ∧
    score_selection [⟨"A", "t2", -2⟩, ⟨"A", "t1", 2⟩] ["A"] 1 = 0 := by
  refine ⟨List.Perm.swap _ _ _, by decide, by decide⟩

/-- Claim C7 (amended): `score_selection` is invariant under any permutation
of the selected list, for every options list (duplicate texts included); and
it is invariant under a permutation of the options list as well whenever the
option texts are pairwise distinct (as they are in the catalog). -/
theorem score_selection_perm_invariant (options options' : List Opt)
    (selected selected' : List String) (max_select : Int)
    (hsel : selected.Perm selected') :
    score_selection options selected max_select
      = score_selection options selected' max_select ∧
    ((options.map Opt.text).Nodup → options.Perm options' →
      score_selection options selected max_select
        = score_selection options' selected' max_select) := by
  constructor
  · simp only [score_selection]
    rw [show rawScore options selected = rawScore options selected' from
      (hsel.map (optWeight options)).sum_eq]
  · intro hnd hopt
    simp only [score_selection]
    rw [rawScore_perm hopt hsel hnd, maxPos_perm hopt]

/-- Claim C7 witness: swapping the selected list over the duplicate-text
catalog leaves the score unchanged, and reversing scenario 1's action
options (distinct texts) with the same selection leaves it unchanged too. -/
theorem score_selection_perm_invariant_witness :
    (["A", "B"] : List String).Perm ["B", "A"] ∧
    score_selection [⟨"A", "t1", 2⟩, ⟨"A", "t2", -2⟩] ["A", "B"] 1
      = score_selection [⟨"A", "t1", 2⟩, ⟨"A", "t2", -2⟩] ["B", "A"] 1 ∧
    (s1_invoice.actions.options.map Opt.text).Nodup ∧
    (s1_invoice.actions.options).Perm s1_invoice.actions.options.reverse ∧
    score_selection s1_invoice.actions.options ["Reply to the email to confirm"] 2
      = score_selection s1_invoice.actions.options.reverse
          ["Reply to the email to confirm"] 2 :=
  ⟨by decide,
   (score_selection_perm_invariant [⟨"A", "t1", 2⟩, ⟨"A", "t2", -2⟩]
      [⟨"A", "t1", 2⟩, ⟨"A", "t2", -2⟩] ["A", "B"] ["B", "A"] 1 (by decide)).1,
   by decide, by decide,
   (score_selection_perm_invariant s1_invoice.actions.options
      s1_invoice.actions.options.reverse ["Reply to the email to confirm"]
      ["Reply to the email to confirm"] 2 (List.Perm.refl _)).2 (by decide) (by decide)⟩

/-- Claim C8: `score_selection` is total, and when the best achievable
weight is ≤ 0 it returns 100 for a nonnegative raw sum and 0 otherwise,
instead of dividing by zero. -/
theorem score_selection_degenerate (options : List Opt) (selected : List String)
    (max_select : Int) (h : maxPos options max_select ≤ 0) :
    score_selection options selected max_select
      = if 0 ≤ rawScore options selected then 100 else 0 := by
  simp only [score_selection]
  rw [if_pos h]

/-- Claim C8 witness: a catalog with a single negative-weight option has
best 0; selecting that option gives raw -2 < 0 and score 0. -/
theorem score_selection_degenerate_witness :
    maxPos [⟨"x", "t", -2⟩] 1 ≤ 0 ∧
    score_selection [⟨"x", "t", -2⟩] ["x"] 1
      = if 0 ≤ rawScore [⟨"x", "t", -2⟩] ["x"] then 100 else 0 :=
  ⟨by decide, score_selection_degenerate _ _ _ (by decide)⟩

/-- Claim C9: the calibration target is hard-coded to "Email & Awareness";
a scenario whose `domain_map` lacks that exact key gets no calibration
adjustment on any domain, whatever the base and confidence. -/
theorem no_calibration_without_awareness (scn : Scenario)
    (sel_cues sel_actions : List String) (confidence : Int)
    (h : "Email & Awareness" ∉ scn.domain_map.map Prod.fst) :
    (evaluate_scenario scn sel_cues sel_actions confidence).contrib
      = scn.domain_map.map (fun dp => (dp.1, evalBase scn sel_cues sel_actions * dp.2)) := by
  rw [evaluate_contrib]
  apply List.map_congr_left
  intro dp _
  rw [if_neg (fun hc => h hc.2)]

/-- Claim C9 witness: the CEO-fraud scenario maps only Governance and
Response & Continuity, so even a perfect, fully confident response gets the
plain proportional contributions. -/
theorem no_calibration_without_awareness_witness :
    "Email & Awareness" ∉ s2_ceo.domain_map.map Prod.fst ∧
    (evaluate_scenario s2_ceo
        ["Non-corporate sender address", "Bypass normal approvals", "Unusual time and secrecy"]
        ["Verify via known company channel", "Log the event and notify finance lead"] 100).contrib
      = s2_ceo.domain_map.map (fun dp =>
          (dp.1, evalBase s2_ceo
              ["Non-corporate sender address", "Bypass normal approvals", "Unusual time and secrecy"]
              ["Verify via known company channel", "Log the event and notify finance lead"] * dp.2)) :=
  ⟨by decide, no_calibration_without_awareness _ _ _ 100 (by decide)⟩

set_option maxRecDepth 8000 in
/-- Claim C10: with no scenario answered, every one of the six fixed domains
scores 0 with label "At risk", and the overall score is 0, "At risk". -/
theorem empty_answers_all_at_risk :
    compute_domain_scores_from_sims (fun _ => none)
      = [("Access & Accounts", { score := 0, colour := "red", label := "At risk" }),
         ("Devices", { score := 0, colour := "red", label := "At risk" }),
         ("Data & Backups", { score := 0, colour := "red", label := "At risk" }),
         ("Email & Awareness", { score := 0, colour := "red", label := "At risk" }),
         ("Response & Continuity", { score := 0, colour := "red", label := "At risk" }),
         ("Governance", { score := 0, colour := "red", label := "At risk" })] ∧
    overall_score (compute_domain_scores_from_sims (fun _ => none))
      = { score := 0, colour := "red", label := "At risk" } := by
  decide

end SME
